import Mathlib

/-!
Shallow embedding of `pages/blogposts/edit/[id].tsx` (the blog-post edit
page of the Scriptorium front end) and proofs about its claims.

The page is a React component whose state is a record of `useState` cells.
Each handler is embedded as a pure function from the state (plus the
inputs the browser / network would supply) to the new state together with
the externally visible effects (network requests issued, scheduled
navigation).  JavaScript strings are modelled as Lean `String` / lists of
`Char`; `localStorage.getItem` results and router query values are
`Option String` with JavaScript falsiness (`null`/`undefined` or `""`)
made explicit.
-/

namespace Scriptorium

/-- TypeScript `interface Template`: a numeric id and a title. -/
structure Template where
  id : Nat
  title : String
deriving Repr, DecidableEq

/-- TypeScript `interface BlogPost` (the fields the page reads). -/
structure BlogPost where
  id : Nat
  title : String
  description : String
  content : String
  tag : String
deriving Repr, DecidableEq

/-- The component's `useState` cells, in source order. -/
structure EditState where
  title : String
  description : String
  content : String
  tag : String
  error : Option String
  success : Option String
  loading : Bool
  matchingTemplates : List Template
  showTemplatePopup : Bool
  cursorPosition : Nat
  initialLoading : Bool
deriving Repr, DecidableEq

/-- The initial state of every `useState` cell. -/
def initState : EditState :=
  { title := ""
    description := ""
    content := ""
    tag := ""
    error := none
    success := none
    loading := false
    matchingTemplates := []
    showTemplatePopup := false
    cursorPosition := 0
    initialLoading := true }

/-- JavaScript falsiness of a `string | null | undefined` value:
`null`, `undefined` and `""` are falsy. -/
def strFalsy : Option String → Bool
  | none => true
  | some s => s == ""

/-- JavaScript `\w`: `[A-Za-z0-9_]`. -/
def isWordChar (c : Char) : Bool :=
  c.isAlphanum || c == '_'

/-- The match of `/#(\w*)$/` against a string given as a char list:
`some tok` when the string ends in `'#'` followed by the (possibly empty)
word-character run `tok`, `none` otherwise.  The regex anchors at the end,
so the matching `'#'` is the last `'#'` of the string and `tok` is the
maximal trailing word-character run. -/
def trailingHashToken (cs : List Char) : Option (List Char) :=
  if (cs.reverse.dropWhile isWordChar).head? = some '#' then
    some (cs.reverse.takeWhile isWordChar).reverse
  else
    none

/-- JavaScript `s.replace(/#\w*$/, repl)` on a char list: replace the
trailing `'#'`-plus-word-characters span by `repl`; if the regex does not
match, the string is returned unchanged. -/
def replaceTrailingHashSpan (cs : List Char) (repl : List Char) : List Char :=
  if (cs.reverse.dropWhile isWordChar).head? = some '#' then
    (cs.reverse.dropWhile isWordChar).tail.reverse ++ repl
  else
    cs

/-- Embedding of `handleContentChange`: store the new content and caret offset, then
match `/#(\w*)$/` against the text before the caret.  On a match with a
non-empty token, fire `handleTemplateSearch` (returned as `some token`)
and show the popup; on a match with an empty token do nothing further; on
no match hide the popup.  The second component is the template-search
request issued, if any. -/
def handleContentChange (s : EditState) (newContent : String) (selectionStart : Nat) :
    EditState × Option String :=
  let s := { s with content := newContent, cursorPosition := selectionStart }
  match trailingHashToken (newContent.toList.take selectionStart) with
  | some tok =>
      if tok.length > 0 then
        ({ s with showTemplatePopup := true }, some (String.mk tok))
      else
        (s, none)
  | none => ({ s with showTemplatePopup := false }, none)

/-- Outcome of the `GET /api/codetemplates` request made by
`handleTemplateSearch`: a resolved response whose `data.codeTemplates`
field may be absent, or a rejected request. -/
inductive SearchResult where
  | ok (codeTemplates : Option (List Template))
  | err
deriving Repr, DecidableEq

/-- Embedding of `handleTemplateSearch`, applied to the outcome of its request: on
success store `response.data.codeTemplates || []`; on failure only
`console.error` runs, so the state is untouched. -/
def handleTemplateSearch (s : EditState) (r : SearchResult) : EditState :=
  match r with
  | .ok ts => { s with matchingTemplates := ts.getD [] }
  | .err => s

/-- Embedding of `handleTemplateSelect`: rewrite the text before the caret with
`.replace(/#\w*$/, "#" + template.id)`, keep the text from the caret on,
and close the popup. -/
def handleTemplateSelect (s : EditState) (template : Template) : EditState :=
  let beforeCursor :=
    replaceTrailingHashSpan (s.content.toList.take s.cursorPosition)
      ('#' :: (toString template.id).toList)
  let afterCursor := s.content.toList.drop s.cursorPosition
  { s with content := String.mk (beforeCursor ++ afterCursor),
           showTemplatePopup := false }

/-- Decimal value of a digit string, as `parseInt` computes it on an
all-digit input. -/
def digitsToNat (ds : List Char) : Nat :=
  ds.foldl (fun a c => a * 10 + (c.toNat - 48)) 0

/-- The scan performed by `content.matchAll(/#(\d+)/g)` followed by
`parseInt` of each capture: walk the characters; at a `'#'` followed by at
least one digit, emit the value of the maximal digit run and resume after
it; otherwise keep walking. -/
def scanTemplateIds : List Char → List Nat
  | [] => []
  | c :: rest =>
      if c = '#' then
        if rest.takeWhile Char.isDigit = [] then
          scanTemplateIds rest
        else
          digitsToNat (rest.takeWhile Char.isDigit) ::
            scanTemplateIds (rest.dropWhile Char.isDigit)
      else
        scanTemplateIds rest
termination_by cs => cs.length
decreasing_by
  all_goals simp
  all_goals exact Nat.lt_succ_of_le (List.dropWhile_sublist _).length_le

/-- The source function `extractTemplateIds` reads the `content` state cell; here the content
string is passed explicitly. -/
def extractTemplateIds (content : String) : List Nat :=
  scanTemplateIds content.toList

/-- Outcome of the `GET /api/blogposts/{id}` request made by
`fetchBlogPost`: a resolved response carrying `data.blogPost`, or a
rejected request whose `err.response?.data?.error` may be absent. -/
inductive FetchResult where
  | ok (blogPost : BlogPost)
  | err (serverError : Option String)
deriving Repr, DecidableEq

/-- Embedding of `fetchBlogPost` (the effect body of the load `useEffect`), as a
function of the router query `id`, the stored `accessToken` and the
outcome the read request would have.  Returns the new state and whether
the read request was issued.  `if (!id) return` happens before the
`try`, so it leaves `initialLoading` alone; the token check is inside the
`try`, so its `finally` clears `initialLoading`. -/
def fetchBlogPost (s : EditState) (id : Option String) (token : Option String)
    (resp : FetchResult) : EditState × Bool :=
  if strFalsy id then
    (s, false)
  else if strFalsy token then
    ({ s with error := some "You need to be logged in to edit posts",
              initialLoading := false }, false)
  else
    match resp with
    | .ok post =>
        ({ s with title := post.title
                  description := post.description
                  content := post.content
                  tag := post.tag
                  initialLoading := false }, true)
    | .err e =>
        ({ s with error := some (e.getD "Failed to load blog post"),
                  initialLoading := false }, true)

/-- The body of the `PUT /api/blogposts/{id}` request. -/
structure UpdatePayload where
  title : String
  description : String
  content : String
  tag : String
  templateIds : List Nat
deriving Repr, DecidableEq

/-- Outcome of the update request: a resolved response with its HTTP
status, or a rejected request whose `err.response?.data?.error` may be
absent. -/
inductive UpdateResult where
  | ok (status : Nat)
  | err (serverError : Option String)
deriving Repr, DecidableEq

/-- A scheduled `setTimeout` navigation: delay in milliseconds and the
route pushed. -/
structure ScheduledNav where
  delayMs : Nat
  route : String
deriving Repr, DecidableEq

/-- Everything `handleUpdatePost` produces: the new state, the update
request issued (if any), and the navigation scheduled (if any). -/
structure UpdateOutcome where
  state : EditState
  request : Option UpdatePayload
  nav : Option ScheduledNav
deriving Repr, DecidableEq

/-- A JavaScript template literal renders `undefined` as the text
`"undefined"`; the router query `id` interpolated into the routes. -/
def jsInterp : Option String → String
  | none => "undefined"
  | some s => s

/-- Embedding of `handleUpdatePost`, as a function of the state, the router query
`id`, the stored `accessToken` and the outcome the update request would
have.  The field check uses JavaScript falsiness (`!title || ...`), and
the `finally` clears `loading` on every path inside the `try`. -/
def handleUpdatePost (s : EditState) (id : Option String) (token : Option String)
    (resp : UpdateResult) : UpdateOutcome :=
  if s.title == "" || s.description == "" || s.content == "" || s.tag == "" then
    { state := { s with error := some "All fields are required!" }
      request := none
      nav := none }
  else
    let templateIds := extractTemplateIds s.content
    let s := { s with loading := true, error := none, success := none }
    if strFalsy token then
      { state := { s with error := some "You need to log in to update the blog post.",
                          loading := false }
        request := none
        nav := none }
    else
      let payload : UpdatePayload :=
        { title := s.title
          description := s.description
          content := s.content
          tag := s.tag
          templateIds := templateIds }
      match resp with
      | .ok status =>
          if status = 200 then
            { state := { s with success := some "Blog post updated successfully!",
                                loading := false }
              request := some payload
              nav := some { delayMs := 2000, route := "/blogposts/" ++ jsInterp id } }
          else
            { state := { s with loading := false }
              request := some payload
              nav := none }
      | .err e =>
          { state := { s with error := some (e.getD "Failed to update blog post."),
                              loading := false }
            request := some payload
            nav := none }

/-! ### Helper lemmas about the `/#(\w*)$/` match -/

lemma takeWhile_all_append (p : Char → Bool) (l l' : List Char) (c : Char)
    (hl : ∀ x ∈ l, p x = true) (hc : p c = false) :
    (l ++ c :: l').takeWhile p = l := by
  induction l with
  | nil => simp [List.takeWhile_cons, hc]
  | cons a as ih =>
      have ha : p a = true := hl a (List.mem_cons_self a as)
      simp only [List.cons_append, List.takeWhile_cons, ha, if_true]
      rw [ih fun x hx => hl x (List.mem_cons_of_mem a hx)]

lemma dropWhile_all_append (p : Char → Bool) (l l' : List Char) (c : Char)
    (hl : ∀ x ∈ l, p x = true) (hc : p c = false) :
    (l ++ c :: l').dropWhile p = c :: l' := by
  induction l with
  | nil => simp [List.dropWhile_cons, hc]
  | cons a as ih =>
      have ha : p a = true := hl a (List.mem_cons_self a as)
      simp only [List.cons_append, List.dropWhile_cons, ha, if_true]
      exact ih fun x hx => hl x (List.mem_cons_of_mem a hx)

/-- When the string decomposes as `pre ++ '#' :: tok` with `tok` all word
characters, the regex `/#(\w*)$/` matches and captures exactly `tok`. -/
lemma trailingHashToken_decomp (pre tok : List Char)
    (htok : ∀ x ∈ tok, isWordChar x = true) :
    trailingHashToken (pre ++ '#' :: tok) = some tok := by
  have hmem : ∀ x ∈ tok.reverse, isWordChar x = true := fun x hx =>
    htok x (List.mem_reverse.mp hx)
  have hhash : isWordChar '#' = false := by decide
  unfold trailingHashToken
  rw [show (pre ++ '#' :: tok).reverse = tok.reverse ++ '#' :: pre.reverse by simp,
      dropWhile_all_append _ _ _ _ hmem hhash,
      takeWhile_all_append _ _ _ _ hmem hhash]
  simp

/-- A string whose `/#(\w*)$/` match fails admits no decomposition as
`pre ++ '#' :: tok` with `tok` all word characters. -/
lemma trailingHashToken_eq_none (cs : List Char)
    (h : trailingHashToken cs = none) :
    ¬ ∃ pre tok, cs = pre ++ '#' :: tok ∧ ∀ x ∈ tok, isWordChar x = true := by
  rintro ⟨pre, tok, rfl, htok⟩
  rw [trailingHashToken_decomp pre tok htok] at h
  exact Option.some_ne_none _ h

/-- Conversely, a successful `/#(\w*)$/` match with capture `tok` means the
string decomposes as `pre ++ '#' :: tok` with `tok` all word characters. -/
lemma trailingHashToken_eq_some (cs tok : List Char)
    (h : trailingHashToken cs = some tok) :
    (∀ x ∈ tok, isWordChar x = true) ∧ ∃ pre, cs = pre ++ '#' :: tok := by
  unfold trailingHashToken at h
  by_cases hc : (cs.reverse.dropWhile isWordChar).head? = some '#'
  · rw [if_pos hc, Option.some.injEq] at h
    obtain ⟨rest, hd⟩ : ∃ rest, cs.reverse.dropWhile isWordChar = '#' :: rest := by
      cases hdw : cs.reverse.dropWhile isWordChar with
      | nil => rw [hdw] at hc; exact absurd hc (by simp)
      | cons a as =>
          rw [hdw] at hc
          simp only [List.head?_cons, Option.some.injEq] at hc
          exact ⟨as, by rw [hc]⟩
    have hsplit : cs.reverse.takeWhile isWordChar ++ '#' :: rest = cs.reverse := by
      rw [← hd]; exact List.takeWhile_append_dropWhile _ _
    refine ⟨fun x hx => ?_, rest.reverse, ?_⟩
    · rw [← h] at hx
      exact List.mem_takeWhile_imp (List.mem_reverse.mp hx)
    · have hcs := congrArg List.reverse hsplit
      simp only [List.reverse_reverse, List.reverse_append, List.reverse_cons] at hcs
      rw [← hcs, ← h]
      simp
  · rw [if_neg hc] at h; exact absurd h (by simp)

/-- When the string decomposes as `pre ++ '#' :: tok` with `tok` all word
characters, `.replace(/#\w*$/, repl)` rewrites it to `pre ++ repl`. -/
lemma replaceTrailingHashSpan_decomp (pre tok repl : List Char)
    (htok : ∀ x ∈ tok, isWordChar x = true) :
    replaceTrailingHashSpan (pre ++ '#' :: tok) repl = pre ++ repl := by
  have hmem : ∀ x ∈ tok.reverse, isWordChar x = true := fun x hx =>
    htok x (List.mem_reverse.mp hx)
  have hhash : isWordChar '#' = false := by decide
  unfold replaceTrailingHashSpan
  rw [show (pre ++ '#' :: tok).reverse = tok.reverse ++ '#' :: pre.reverse by simp,
      dropWhile_all_append _ _ _ _ hmem hhash]
  simp

/-! ### Spec-side characterization of template-id extraction

The spec (section 4.3) describes the extraction as a scan of the full
content for "all occurrences of `#<digits>`", collecting "the numeric
ids", in order, duplicates preserved.  `specScan` states this
independently of the implementation's recursion: an occurrence is a
position holding `'#'` whose next character is a digit, and its id is the
decimal value of the maximal digit run that follows. -/

/-- The decimal value of the digit run starting right after position `i`. -/
def hashValueAt (cs : List Char) (i : Nat) : Nat :=
  digitsToNat ((cs.drop (i + 1)).takeWhile Char.isDigit)

/-- All occurrences of `#<digits>` in a char list, by position, each
collected as its numeric id. -/
def specScan (cs : List Char) : List Nat :=
  ((List.range cs.length).filter fun i =>
      cs.getD i ' ' == '#' && (cs.getD (i + 1) ' ').isDigit).map (hashValueAt cs)

/-- The spec's description of template-reference extraction, over the
content string. -/
def specTemplateIds (content : String) : List Nat :=
  specScan content.toList

lemma specScan_nil : specScan [] = [] := rfl

lemma specScan_cons (c : Char) (rest : List Char) :
    specScan (c :: rest) =
      (if c == '#' && (rest.getD 0 ' ').isDigit then
          [digitsToNat (rest.takeWhile Char.isDigit)]
        else []) ++ specScan rest := by
  unfold specScan
  rw [List.length_cons, List.range_succ_eq_map, List.filter_cons]
  have hshift :
      ((List.map Nat.succ (List.range rest.length)).filter fun i =>
          (c :: rest).getD i ' ' == '#' && ((c :: rest).getD (i + 1) ' ').isDigit).map
        (hashValueAt (c :: rest)) =
      ((List.range rest.length).filter fun i =>
          rest.getD i ' ' == '#' && (rest.getD (i + 1) ' ').isDigit).map (hashValueAt rest) := by
    rw [List.filter_map, List.map_map]
    have hf : hashValueAt (c :: rest) ∘ Nat.succ = hashValueAt rest := by
      funext i
      simp [Function.comp, hashValueAt]
    have hp : ((fun i => (c :: rest).getD i ' ' == '#' &&
          ((c :: rest).getD (i + 1) ' ').isDigit) ∘ Nat.succ) =
        fun i => rest.getD i ' ' == '#' && (rest.getD (i + 1) ' ').isDigit := by
      funext i
      simp [Function.comp]
    rw [hf, hp]
  by_cases hc : (c == '#' && (rest.getD 0 ' ').isDigit) = true
  · rw [if_pos ?_, if_pos hc]
    · rw [List.map_cons, hshift]
      simp [hashValueAt]
    · simpa [List.getD_cons_zero, List.getD_cons_succ] using hc
  · rw [if_neg ?_, if_neg hc]
    · exact hshift
    · simpa [List.getD_cons_zero, List.getD_cons_succ] using hc

lemma specScan_after_digits (ds tail : List Char)
    (h : ∀ x ∈ ds, x.isDigit = true) :
    specScan (ds ++ tail) = specScan tail := by
  induction ds with
  | nil => rfl
  | cons d ds ih =>
      rw [List.cons_append, specScan_cons]
      have hd : d.isDigit = true := h d (List.mem_cons_self d ds)
      have hne : (d == '#') = false := by
        cases hb : d == '#' with
        | false => rfl
        | true =>
            have : d = '#' := by simpa using hb
            rw [this] at hd
            exact absurd hd (by decide)
      rw [hne]
      simpa using ih fun x hx => h x (List.mem_cons_of_mem d hx)

/-- The implementation's scan computes exactly the spec's list of
occurrences. -/
lemma scanTemplateIds_eq_specScan (cs : List Char) :
    scanTemplateIds cs = specScan cs := by
  have main : ∀ n, ∀ cs : List Char, cs.length ≤ n → scanTemplateIds cs = specScan cs := by
    intro n
    induction n with
    | zero =>
        intro cs hlen
        rw [List.length_eq_zero.mp (Nat.le_zero.mp hlen), scanTemplateIds]
        rfl
    | succ n ih =>
        intro cs hlen
        match cs with
        | [] =>
            rw [scanTemplateIds]
            rfl
        | c :: rest =>
            have hrest : rest.length ≤ n := by
              simpa [Nat.succ_le_succ_iff] using hlen
            rw [scanTemplateIds, specScan_cons]
            by_cases hc : c = '#'
            · subst hc
              rw [if_pos rfl]
              by_cases hds : rest.takeWhile Char.isDigit = []
              · rw [if_pos hds]
                have hnd : ((rest.getD 0 ' ').isDigit : Bool) = false := by
                  cases rest with
                  | nil => rfl
                  | cons r rs =>
                      rw [List.takeWhile_cons] at hds
                      by_cases hr : r.isDigit = true
                      · rw [if_pos hr] at hds; exact absurd hds (by simp)
                      · simpa [List.getD_cons_zero] using hr

                rw [show (('#' == '#' && (rest.getD 0 ' ').isDigit) : Bool) = false by
                      rw [hnd, Bool.and_false]]
                simpa using ih rest hrest
              · rw [if_neg hds]
                have hd0 : ((rest.getD 0 ' ').isDigit : Bool) = true := by
                  cases rest with
                  | nil => exact absurd rfl hds
                  | cons r rs =>
                      rw [List.takeWhile_cons] at hds
                      by_cases hr : r.isDigit = true
                      · simpa [List.getD_cons_zero] using hr
                      · rw [if_neg hr] at hds; exact absurd rfl hds
                rw [show (('#' == '#' && (rest.getD 0 ' ').isDigit) : Bool) = true by
                      rw [hd0, Bool.and_true]; rfl]
                have hsplit : rest.takeWhile Char.isDigit ++ rest.dropWhile Char.isDigit
                    = rest := List.takeWhile_append_dropWhile _ _
                have hdrop : (rest.dropWhile Char.isDigit).length ≤ n :=
                  le_trans (List.dropWhile_sublist _).length_le hrest
                have hspec : specScan rest = specScan (rest.dropWhile Char.isDigit) := by
                  conv_lhs => rw [← hsplit]
                  exact specScan_after_digits _ _ fun x hx => List.mem_takeWhile_imp hx
                rw [hspec]
                simpa using ih _ hdrop
            · rw [if_neg hc]
              have hne : (c == '#') = false := by
                cases hb : c == '#' with
                | false => rfl
                | true => exact absurd (by simpa using hb) hc
              rw [hne]
              simpa using ih rest hrest
  exact main cs.length cs (le_refl _)

/-! ### Claim theorems -/

/-- C1 (amended).  `handleContentChange` issues a template search for
token `t` and shows the dropdown exactly when the text before the caret
ends in `'#'` followed by the non-empty word-character token `t`; when the
text before the caret does not end in `'#'` followed by word characters it
hides the dropdown and issues no search; but with a bare `'#'` (empty
token) it issues no search and leaves the dropdown visibility unchanged
rather than hiding it. -/
theorem handleContentChange_popup_spec (s : EditState) (c : String) (sel : Nat) :
    (∀ pre tok, c.toList.take sel = pre ++ '#' :: tok →
        (∀ x ∈ tok, isWordChar x = true) → tok ≠ [] →
        (handleContentChange s c sel).1.showTemplatePopup = true ∧
        (handleContentChange s c sel).2 = some (String.mk tok)) ∧
    (∀ pre, c.toList.take sel = pre ++ ['#'] →
        (handleContentChange s c sel).1.showTemplatePopup = s.showTemplatePopup ∧
        (handleContentChange s c sel).2 = none) ∧
    ((¬ ∃ pre tok, c.toList.take sel = pre ++ '#' :: tok ∧
          ∀ x ∈ tok, isWordChar x = true) →
        (handleContentChange s c sel).1.showTemplatePopup = false ∧
        (handleContentChange s c sel).2 = none) := by
  refine ⟨?_, ?_, ?_⟩
  · intro pre tok hdec htok hne
    unfold handleContentChange
    rw [hdec, trailingHashToken_decomp pre tok htok]
    have hpos : 0 < tok.length := List.length_pos.mpr hne
    simp [hpos]
  · intro pre hdec
    unfold handleContentChange
    rw [hdec, trailingHashToken_decomp pre [] (by simp)]
    simp
  · intro hno
    cases hm : trailingHashToken (c.toList.take sel) with
    | none =>
        unfold handleContentChange
        rw [hm]
        simp
    | some tok =>
        obtain ⟨hw, pre, hdec⟩ := trailingHashToken_eq_some _ _ hm
        exact absurd ⟨pre, tok, hdec, hw⟩ hno

/-- C1 witness: typing `"hello #fo"` with the caret at offset 9 shows
the popup and searches for `"fo"`. -/
theorem handleContentChange_popup_spec_witness :
    (handleContentChange initState "hello #fo" 9).1.showTemplatePopup = true ∧
    (handleContentChange initState "hello #fo" 9).2 = some (String.mk ['f', 'o']) :=
  (handleContentChange_popup_spec initState "hello #fo" 9).1 "hello ".toList ['f', 'o']
    (by decide) (by decide) (by decide)

/-- C1 counterexample: with the popup showing, typing so that the text
before the caret is `"a#"` (a bare `'#'` with an empty token) leaves the
popup SHOWING — the claim says the dropdown is hidden in this case. -/
theorem handleContentChange_bareHash_cex :
    ((handleContentChange { initState with showTemplatePopup := true }
        "a#" 2).1.showTemplatePopup = true) ∧
    ((handleContentChange { initState with showTemplatePopup := true }
        "a#" 2).2 = none) := by
  decide

/-- C4.  When the text before the caret ends in the maximal span
`'#' :: tok` of word characters, `handleTemplateSelect` replaces that span
with `'#'` followed by the template's id, keeps all text at and after the
caret offset unchanged, and closes the dropdown. -/
theorem handleTemplateSelect_spec (s : EditState) (t : Template) (pre tok : List Char)
    (hdec : s.content.toList.take s.cursorPosition = pre ++ '#' :: tok)
    (htok : ∀ x ∈ tok, isWordChar x = true) :
    handleTemplateSelect s t =
      { s with
          content := String.mk (pre ++ '#' :: ((toString t.id).toList ++
            s.content.toList.drop s.cursorPosition)),
          showTemplatePopup := false } := by
  unfold handleTemplateSelect
  rw [hdec, replaceTrailingHashSpan_decomp pre tok _ htok]
  simp

/-- C4 witness: selecting the suggestion with id 42 in
`"hello #fo world"` with the caret at offset 9 yields
`"hello #42 world"`. -/
theorem handleTemplateSelect_spec_witness :
    handleTemplateSelect { initState with content := "hello #fo world", cursorPosition := 9 }
        ⟨42, "tpl"⟩ =
      { initState with content := "hello #42 world", cursorPosition := 9,
                       showTemplatePopup := false } :=
  (handleTemplateSelect_spec _ _ "hello ".toList "fo".toList (by decide) (by decide)).trans
    (by decide)

/-- C7 (amended).  A failed template-search request leaves the entire
state unchanged: the user-visible error message is never set, and the
matching-template list keeps its previous value (so it is empty only when
it was already empty). -/
theorem handleTemplateSearch_failure_spec (s : EditState) :
    handleTemplateSearch s SearchResult.err = s := rfl

/-- C7 counterexample: when a previous search had populated the list,
a subsequent failed search does NOT leave the matching-template list
empty — it keeps the stale entries. -/
theorem handleTemplateSearch_failure_cex :
    (handleTemplateSearch { initState with matchingTemplates := [⟨1, "t"⟩] }
        SearchResult.err).matchingTemplates ≠ [] := by
  decide

/-- C9.  `handleTemplateSelect` modifies only the content field and
the popup-visibility flag; every other state cell is unchanged. -/
theorem handleTemplateSelect_frame (s : EditState) (t : Template) :
    (handleTemplateSelect s t).title = s.title ∧
    (handleTemplateSelect s t).description = s.description ∧
    (handleTemplateSelect s t).tag = s.tag ∧
    (handleTemplateSelect s t).error = s.error ∧
    (handleTemplateSelect s t).success = s.success ∧
    (handleTemplateSelect s t).loading = s.loading ∧
    (handleTemplateSelect s t).matchingTemplates = s.matchingTemplates ∧
    (handleTemplateSelect s t).cursorPosition = s.cursorPosition ∧
    (handleTemplateSelect s t).initialLoading = s.initialLoading :=
  ⟨rfl, rfl, rfl, rfl, rfl, rfl, rfl, rfl, rfl⟩

/-- A fully filled form, used by the concrete submissions below. -/
def fullState : EditState :=
  { initState with title := "t", description := "d", content := "c", tag := "g" }

/-- C2 (amended).  For a submission that passes validation with a
stored token, `handleUpdatePost` is a three-way case split: an HTTP 200
response sets the success message and schedules navigation to the post's
view page after the fixed 2000 ms delay; a rejected request sets the error
message to the server-provided error when present, otherwise the generic
fallback, and does not navigate; a response that resolves with a status
other than 200 sets neither message (both were cleared at submission
time) and does not navigate. -/
theorem handleUpdatePost_response_spec (s : EditState) (id token : Option String)
    (resp : UpdateResult)
    (h1 : s.title ≠ "") (h2 : s.description ≠ "") (h3 : s.content ≠ "") (h4 : s.tag ≠ "")
    (htok : strFalsy token = false) :
    (resp = .ok 200 →
        (handleUpdatePost s id token resp).state.success =
          some "Blog post updated successfully!" ∧
        (handleUpdatePost s id token resp).state.error = none ∧
        (handleUpdatePost s id token resp).nav =
          some { delayMs := 2000, route := "/blogposts/" ++ jsInterp id }) ∧
    (∀ e, resp = .err e →
        (handleUpdatePost s id token resp).state.error =
          some (e.getD "Failed to update blog post.") ∧
        (handleUpdatePost s id token resp).state.success = none ∧
        (handleUpdatePost s id token resp).nav = none) ∧
    (∀ st, resp = .ok st → st ≠ 200 →
        (handleUpdatePost s id token resp).state.error = none ∧
        (handleUpdatePost s id token resp).state.success = none ∧
        (handleUpdatePost s id token resp).nav = none) := by
  have hv : (s.title == "" || s.description == "" || s.content == "" || s.tag == "")
      = false := by
    simp [h1, h2, h3, h4]
  refine ⟨?_, ?_, ?_⟩
  · rintro rfl
    unfold handleUpdatePost
    rw [hv, htok]
    simp
  · rintro e rfl
    unfold handleUpdatePost
    rw [hv, htok]
    simp
  · rintro st rfl hne
    unfold handleUpdatePost
    rw [hv, htok]
    simp [hne]

/-- C2 witness: a resolved HTTP 200 update on a filled form shows the
success message and schedules navigation after 2000 ms. -/
theorem handleUpdatePost_response_spec_witness :
    (handleUpdatePost fullState (some "7") (some "tok") (.ok 200)).state.success =
        some "Blog post updated successfully!" ∧
    (handleUpdatePost fullState (some "7") (some "tok") (.ok 200)).state.error = none ∧
    (handleUpdatePost fullState (some "7") (some "tok") (.ok 200)).nav =
        some { delayMs := 2000, route := "/blogposts/" ++ jsInterp (some "7") } :=
  (handleUpdatePost_response_spec fullState (some "7") (some "tok") (.ok 200)
    (by decide) (by decide) (by decide) (by decide) (by decide)).1 rfl

/-- C2 counterexample: a response that resolves with HTTP 201 on a
filled form with a stored token sets NO error message (and no success
message) — the claim says any non-200 outcome sets the server error or
the fallback `"Failed to update blog post."`. -/
theorem handleUpdatePost_non200_cex :
    (handleUpdatePost fullState (some "7") (some "tok") (.ok 201)).state.error = none ∧
    (handleUpdatePost fullState (some "7") (some "tok") (.ok 201)).state.success = none ∧
    (handleUpdatePost fullState (some "7") (some "tok") (.ok 201)).nav = none := by
  decide

/-- C3.  `extractTemplateIds` returns the numeric values of all
occurrences of `'#'` followed by one-or-more digits, in order of
occurrence, duplicates preserved and nothing filtered (the positional
characterization `specTemplateIds`); in particular
`"see #1 and #23 and #1"` yields `[1, 23, 1]`. -/
theorem extractTemplateIds_spec :
    (∀ content : String, extractTemplateIds content = specTemplateIds content) ∧
    extractTemplateIds "see #1 and #23 and #1" = [1, 23, 1] := by
  have h : ∀ content : String, extractTemplateIds content = specTemplateIds content :=
    fun content => scanTemplateIds_eq_specScan content.toList
  exact ⟨h, (h _).trans (by decide)⟩

/-- C5.  When any of the four fields is empty, `handleUpdatePost`
only sets the `"All fields are required!"` error: no request is issued,
no navigation is scheduled, and no other state cell changes. -/
theorem handleUpdatePost_validation (s : EditState) (id token : Option String)
    (resp : UpdateResult)
    (h : s.title = "" ∨ s.description = "" ∨ s.content = "" ∨ s.tag = "") :
    handleUpdatePost s id token resp =
      { state := { s with error := some "All fields are required!" }
        request := none
        nav := none } := by
  have hv : (s.title == "" || s.description == "" || s.content == "" || s.tag == "")
      = true := by
    rcases h with h | h | h | h <;> simp [h]
  unfold handleUpdatePost
  rw [hv]
  simp

/-- C5 witness: submitting with an empty title (and the other fields
filled) yields only the validation error. -/
theorem handleUpdatePost_validation_witness :
    handleUpdatePost { initState with description := "d", content := "c", tag := "g" }
        none none (.err none) =
      { state := { initState with description := "d", content := "c", tag := "g",
                                  error := some "All fields are required!" }
        request := none
        nav := none } :=
  handleUpdatePost_validation _ none none (.err none) (Or.inl rfl)

/-- C6.  Loading with an identifier present but no stored token sets
the authentication error and stops: the read request is never issued and
the four editable fields stay empty. -/
theorem fetchBlogPost_noToken (id token : Option String) (resp : FetchResult)
    (hid : strFalsy id = false) (ht : strFalsy token = true) :
    (fetchBlogPost initState id token resp).2 = false ∧
    (fetchBlogPost initState id token resp).1.error =
      some "You need to be logged in to edit posts" ∧
    (fetchBlogPost initState id token resp).1.title = "" ∧
    (fetchBlogPost initState id token resp).1.description = "" ∧
    (fetchBlogPost initState id token resp).1.content = "" ∧
    (fetchBlogPost initState id token resp).1.tag = "" := by
  unfold fetchBlogPost
  rw [hid, ht]
  simp [initState]

/-- C6 witness: loading post 5 with no stored token. -/
theorem fetchBlogPost_noToken_witness :
    (fetchBlogPost initState (some "5") none (.err none)).2 = false ∧
    (fetchBlogPost initState (some "5") none (.err none)).1.error =
      some "You need to be logged in to edit posts" ∧
    (fetchBlogPost initState (some "5") none (.err none)).1.title = "" ∧
    (fetchBlogPost initState (some "5") none (.err none)).1.description = "" ∧
    (fetchBlogPost initState (some "5") none (.err none)).1.content = "" ∧
    (fetchBlogPost initState (some "5") none (.err none)).1.tag = "" :=
  fetchBlogPost_noToken (some "5") none (.err none) (by decide) rfl

/-- C8.  Loading with a stored token and a successful read sets the
four editable fields exactly to the fields of the returned blog post (and
issues the read request). -/
theorem fetchBlogPost_success (s : EditState) (id token : Option String) (post : BlogPost)
    (hid : strFalsy id = false) (ht : strFalsy token = false) :
    fetchBlogPost s id token (.ok post) =
      ({ s with title := post.title, description := post.description,
                content := post.content, tag := post.tag,
                initialLoading := false }, true) := by
  unfold fetchBlogPost
  rw [hid, ht]
  simp

/-- C8 witness: loading post 5 with a stored token populates the four
fields from the payload. -/
theorem fetchBlogPost_success_witness :
    fetchBlogPost initState (some "5") (some "tok")
        (.ok { id := 5, title := "T", description := "D", content := "C", tag := "G" }) =
      ({ initState with title := "T", description := "D", content := "C", tag := "G",
                        initialLoading := false }, true) :=
  (fetchBlogPost_success initState (some "5") (some "tok") _ (by decide) (by decide)).trans
    (by decide)

/-- C10.  With all four fields non-empty but no stored token,
`handleUpdatePost` issues no update request and ends with the log-in
error set, the success message `none`, and the loading flag back to
`false`. -/
theorem handleUpdatePost_noToken (s : EditState) (id token : Option String)
    (resp : UpdateResult)
    (h1 : s.title ≠ "") (h2 : s.description ≠ "") (h3 : s.content ≠ "") (h4 : s.tag ≠ "")
    (ht : strFalsy token = true) :
    handleUpdatePost s id token resp =
      { state := { s with loading := false,
                          error := some "You need to log in to update the blog post.",
                          success := none }
        request := none
        nav := none } := by
  have hv : (s.title == "" || s.description == "" || s.content == "" || s.tag == "")
      = false := by
    simp [h1, h2, h3, h4]
  unfold handleUpdatePost
  rw [hv, ht]
  simp

/-- C10 witness: submitting a filled form with no stored token. -/
theorem handleUpdatePost_noToken_witness :
    handleUpdatePost fullState (some "7") none (.ok 200) =
      { state := { fullState with loading := false,
                                  error := some "You need to log in to update the blog post.",
                                  success := none }
        request := none
        nav := none } :=
  handleUpdatePost_noToken fullState (some "7") none (.ok 200)
    (by decide) (by decide) (by decide) (by decide) rfl

end Scriptorium
